import Mathlib

/-!
Shallow embedding of `minecraft/conn.go` from the gophertunnel repository:
the server-side Minecraft Bedrock connection core (login state machine,
resource pack streaming, encryption activation, read/write/close surface).

Byte strings are modelled as `List Nat`; the byte-level packet codec, the
crypto primitives and the collaborator packages (`packet`, `protocol`,
`login`, `jwt`, `resource`) are not part of the source file and are
modelled from the spec where needed, as documented on each definition.
-/

namespace Gophertunnel

/-- Bytes are modelled as lists of natural numbers (each intended below 256). -/
abbrev Bytes := List Nat

/-- Modelled from the spec: the numeric packet IDs live in the `packet`
package, outside this source file.  The values are the Bedrock protocol's
well-known IDs; the development only relies on their distinctness. -/
def IDLogin : Nat := 1

/-- Modelled from the spec: packet ID of PlayStatus. -/
def IDPlayStatus : Nat := 2

/-- Modelled from the spec: packet ID of ServerToClientHandshake. -/
def IDServerToClientHandshake : Nat := 3

/-- Modelled from the spec: packet ID of ClientToServerHandshake. -/
def IDClientToServerHandshake : Nat := 4

/-- Modelled from the spec: packet ID of Disconnect. -/
def IDDisconnect : Nat := 5

/-- Modelled from the spec: packet ID of ResourcePacksInfo. -/
def IDResourcePacksInfo : Nat := 6

/-- Modelled from the spec: packet ID of ResourcePackStack. -/
def IDResourcePackStack : Nat := 7

/-- Modelled from the spec: packet ID of ResourcePackClientResponse. -/
def IDResourcePackClientResponse : Nat := 8

/-- Modelled from the spec: packet ID of ResourcePackDataInfo. -/
def IDResourcePackDataInfo : Nat := 82

/-- Modelled from the spec: packet ID of ResourcePackChunkData. -/
def IDResourcePackChunkData : Nat := 83

/-- Modelled from the spec: packet ID of ResourcePackChunkRequest. -/
def IDResourcePackChunkRequest : Nat := 84

/-- Modelled from the spec: PlayStatus status code for a successful login. -/
def PlayStatusLoginSuccess : Nat := 0

/-- Modelled from the spec: PlayStatus status code for an outdated client. -/
def PlayStatusLoginFailedClient : Nat := 1

/-- Modelled from the spec: PlayStatus status code for an outdated server. -/
def PlayStatusLoginFailedServer : Nat := 2

/-- Modelled from the spec: PlayStatus status code for player spawn. -/
def PlayStatusPlayerSpawn : Nat := 3

/-- Modelled from the spec: PlayStatus status code for an invalid tenant. -/
def PlayStatusLoginFailedInvalidTenant : Nat := 4

/-- Modelled from the spec: PlayStatus status code for joining edu from vanilla. -/
def PlayStatusLoginFailedVanillaEdu : Nat := 5

/-- Modelled from the spec: PlayStatus status code for joining vanilla from edu. -/
def PlayStatusLoginFailedEduVanilla : Nat := 6

/-- Modelled from the spec: PlayStatus status code for a full server. -/
def PlayStatusLoginFailedServerFull : Nat := 7

/-- Modelled from the spec: ResourcePackClientResponse code `Refused`. -/
def PackResponseRefused : Nat := 1

/-- Modelled from the spec: ResourcePackClientResponse code `SendPacks`. -/
def PackResponseSendPacks : Nat := 2

/-- Modelled from the spec: ResourcePackClientResponse code `AllPacksDownloaded`. -/
def PackResponseAllPacksDownloaded : Nat := 3

/-- Modelled from the spec: ResourcePackClientResponse code `Completed`. -/
def PackResponseCompleted : Nat := 4

/-- Size of a single chunk of data from a resource pack: 512 kB (`packChunkSize`
in `conn.go`). -/
def packChunkSize : Nat := 1024 * 512

/-- Modelled from the spec: the `protocol` package's single `CurrentProtocol`
constant.  Its numeric value lives outside this source file; the claims only
compare client protocols against it. -/
def CurrentProtocol : Nat := 354

/-- One output character of base64: index `n < 64` into the alphabet whose
characters 62 and 63 are `c62` and `c63` (standard: `+` and `/`; URL-safe:
`-` and `_`). -/
def base64Char (c62 c63 : Char) (n : Nat) : Char :=
  if n < 26 then Char.ofNat (65 + n)
  else if n < 52 then Char.ofNat (97 + (n - 26))
  else if n < 62 then Char.ofNat (48 + (n - 52))
  else if n = 62 then c62
  else c63

/-- Unpadded base64 encoding over the alphabet determined by `c62`/`c63`,
following Go's `encoding/base64` raw (no padding) encodings: groups of three
bytes map to four characters, a final group of one or two bytes maps to two
or three characters. -/
def base64RawChars (c62 c63 : Char) : Bytes → List Char
  | [] => []
  | [b1] =>
      [base64Char c62 c63 (b1 / 4), base64Char c62 c63 (b1 % 4 * 16)]
  | [b1, b2] =>
      [base64Char c62 c63 (b1 / 4), base64Char c62 c63 (b1 % 4 * 16 + b2 / 16),
       base64Char c62 c63 (b2 % 16 * 4)]
  | b1 :: b2 :: b3 :: rest =>
      base64Char c62 c63 (b1 / 4) :: base64Char c62 c63 (b1 % 4 * 16 + b2 / 16) ::
      base64Char c62 c63 (b2 % 16 * 4 + b3 / 64) :: base64Char c62 c63 (b3 % 64) ::
      base64RawChars c62 c63 rest

/-- Go's `base64.RawStdEncoding.EncodeToString`: standard alphabet, no padding. -/
def base64RawStd (bs : Bytes) : String :=
  ⟨base64RawChars '+' '/' bs⟩

/-- URL-safe base64 without padding (Go's `base64.RawURLEncoding`); this is the
encoding the spec calls `base64url_nopad`, defined here for comparison with
what the source actually uses. -/
def base64RawURL (bs : Bytes) : String :=
  ⟨base64RawChars '-' '_' bs⟩

/-- Minimal big-endian byte representation of a natural number, matching Go's
`big.Int.Bytes` (the zero value maps to the empty slice). -/
def natToBE (n : Nat) : Bytes :=
  (Nat.digits 256 n).reverse

/-- Modelled from the spec: `resource.Pack`, the byte-addressable resource pack
collaborator.  Only the metadata and total byte length are relevant here; the
content bytes themselves are never inspected by `conn.go`, only counted. -/
structure Pack where
  uuid : String
  version : String
  size : Nat
  hasScripts : Bool
  hasBehaviours : Bool
deriving DecidableEq

/-- Entry of a ResourcePacksInfo or ResourcePackStack packet
(`packet.ResourcePack` in the `packet` package). -/
structure ResourcePackEntry where
  uuid : String
  version : String
  size : Nat
  hasScripts : Bool
deriving DecidableEq

/-- JWT header as built in `enableEncryption`: signing algorithm and `x5u`. -/
structure JWTHeader where
  algorithm : String
  x5u : String
deriving DecidableEq

/-- Modelled from the spec: the token produced by `jwt.New(header, payload,
privateKey)`.  Signing itself is opaque to this file, so the token records the
header, the single `salt` payload claim, and the private scalar it was signed
with. -/
structure JWTToken where
  header : JWTHeader
  payloadSalt : String
  signedWithD : Nat
deriving DecidableEq

/-- Typed packets of the handshake set.  The byte-level marshalling lives in
the `packet` package outside this source file; packets are modelled in their
decoded form. -/
inductive Packet where
  | login (clientProtocol : Nat) (connectionRequest : Bytes)
  | playStatus (status : Nat)
  | serverToClientHandshake (token : JWTToken)
  | clientToServerHandshake
  | disconnect
  | resourcePacksInfo (texturePackRequired hasScripts : Bool)
      (behaviourPacks texturePacks : List ResourcePackEntry)
  | resourcePackStack (texturePackRequired : Bool)
      (behaviourPacks texturePacks : List ResourcePackEntry)
  | resourcePackClientResponse (response : Nat) (packsToDownload : List String)
  | resourcePackDataInfo (uuid : String) (chunkSize chunkCount size : Nat)
  | resourcePackChunkRequest (uuid : String) (chunkIndex : Nat)
  | resourcePackChunkData (uuid : String) (chunkIndex dataOffset dataLen : Nat)
  | unknown (pid : Nat)
deriving DecidableEq

/-- Numeric packet ID, as returned by the `ID()` method of each packet type. -/
def Packet.id : Packet → Nat
  | .login .. => IDLogin
  | .playStatus .. => IDPlayStatus
  | .serverToClientHandshake .. => IDServerToClientHandshake
  | .clientToServerHandshake => IDClientToServerHandshake
  | .disconnect => IDDisconnect
  | .resourcePacksInfo .. => IDResourcePacksInfo
  | .resourcePackStack .. => IDResourcePackStack
  | .resourcePackClientResponse .. => IDResourcePackClientResponse
  | .resourcePackDataInfo .. => IDResourcePackDataInfo
  | .resourcePackChunkRequest .. => IDResourcePackChunkRequest
  | .resourcePackChunkData .. => IDResourcePackChunkData
  | .unknown pid => pid

/-- One serialised frame as carried on the inbound `packets` channel: the
decoded packet (header ID plus payload, with unknown IDs already folded to
`Packet.unknown` as the pool lookup in `ReadPacket` does) together with its
byte length, which `Read` compares against the caller's buffer. -/
structure RawFrame where
  pk : Packet
  size : Nat
deriving DecidableEq

/-- Errors returned by the modelled methods.  Each constructor corresponds to
one `fmt.Errorf` site (or collaborator error) in `conn.go`, carrying the data
interpolated into the message. -/
inductive ConnErr where
  | readBufferTooSmall
  | readTimeout
  | connClosed
  | wouldBlock
  | deadlineBeforeNow
  | verifyErr (msg : String)
  | notAuthenticated
  | decodeErr (msg : String)
  | invalidIdentityData (msg : String)
  | invalidClientData (msg : String)
  | marshalKeyErr (msg : String)
  | unknownPack (uuid : String)
  | noPacksToDownload
  | nilPackQueue
  | nilCurrentPack
  | chunkRequestUnexpectedUUID (expected got : String)
  | chunkRequestUnexpectedIndex (expected got : Nat)
  | unknownPackResponse (response : Nat)
  | clientOutdated
  | serverOutdated
  | invalidTenant
  | vanillaEdu
  | eduVanilla
  | serverFull
  | unknownPlayStatus (status : Nat)
  | encodeFailure
deriving DecidableEq

/-- Server key pair: the P-384 private scalar `d` and the public point.  The
curve arithmetic itself is a collaborator (Go's `crypto/elliptic`). -/
structure PrivateKey where
  d : Nat
  pubX : Nat
  pubY : Nat
deriving DecidableEq

/-- The `resourcePackQueue` state: the offered packs, the download queue built
by `Request`, and the streaming cursor (current pack plus byte offset).
Its operations are modelled from the spec, since the queue's own source file
is not part of `conn.go`. -/
structure ResourcePackQueue where
  packs : List Pack
  queue : List Pack
  currentPack : Option Pack
  currentOffset : Nat
deriving DecidableEq

/-- The `Conn` state.  Channels are modelled by their buffered content: the
inbound `packets` channel is a FIFO list, the one-slot `close` channel is the
count of values it holds.  The codec pair is modelled by its encryption flags
and installed keys; `sentBatches` records every batch handed to the encoder,
tagged with whether the encoder was in encrypted mode at that point. -/
structure Conn where
  expectedID : Nat
  loggedIn : Bool
  packets : List RawFrame
  bufferedSend : List Packet
  packQueue : Option ResourcePackQueue
  closeChan : Nat
  transportClosed : Bool
  sentBatches : List (List Packet × Bool)
  encoderEncrypted : Bool
  decoderEncrypted : Bool
  encoderKey : Option Bytes
  decoderKey : Option Bytes
  salt : Bytes
  privateKey : PrivateKey
  resourcePacks : List Pack
  texturePacksRequired : Bool
deriving DecidableEq

/-- Modelled from the spec: the external collaborators `conn.go` calls into —
SHA-256 and P-384 scalar multiplication (Go's `crypto` packages),
`jwt.MarshalPublicKey` (DER SubjectPublicKeyInfo, base64), and the
`login.Verify` / `login.Decode` / validation services.  They are abstract
function parameters; the development quantifies over them. -/
structure Externals where
  sha256 : Bytes → Bytes
  scalarMultX : Nat → Nat → Nat → Nat
  marshalPublicKey : Nat → Nat → Except String String
  verifyLogin : Bytes → Except String (Nat × Nat × Bool)
  decodeLogin : Bytes → Except String (Nat × Nat)
  validateIdentity : Nat → Option String
  validateClient : Nat → Option String

/-- `WritePacket`: serialise and append to the outbound buffer under the send
mutex.  Writing the header into an in-memory buffer cannot fail, so the
error result of the Go method is always nil here. -/
def Conn.writePacket (conn : Conn) (pk : Packet) : Conn × Option ConnErr :=
  ({ conn with bufferedSend := conn.bufferedSend ++ [pk] }, none)

/-- `Flush`: if the outbound buffer is non-empty, hand it to the encoder as one
batch and reset the buffer.  The encoder writes to the transport; a closed
transport makes the write fail, in which case the buffer is not reset. -/
def Conn.flush (conn : Conn) : Conn × Option ConnErr :=
  if conn.bufferedSend.isEmpty then (conn, none)
  else if conn.transportClosed then (conn, some .encodeFailure)
  else
    ({ conn with
        sentBatches := conn.sentBatches ++ [(conn.bufferedSend, conn.encoderEncrypted)],
        bufferedSend := [] }, none)

/-- `Close`: if the close channel already holds a value the call returns nil at
once; otherwise flush (error ignored), signal close, and close the transport. -/
def Conn.closeConn (conn : Conn) : Conn × Option ConnErr :=
  if conn.closeChan ≠ 0 then (conn, none)
  else
    let conn := (conn.flush).1
    let conn := { conn with closeChan := 1 }
    ({ conn with transportClosed := true }, none)

/-- `Read`: dequeue the next inbound frame; fail with zero bytes read if the
caller's buffer is smaller than the frame.  The select over the deadline and
close channels is modelled with data priority; `wouldBlock` is a modelling
artifact standing for the suspension of the Go call when nothing is ready. -/
def Conn.read (conn : Conn) (bufLen : Nat) : Conn × Nat × Option ConnErr :=
  match conn.packets with
  | data :: rest =>
      if bufLen < data.size then
        ({ conn with packets := rest }, 0, some .readBufferTooSmall)
      else
        ({ conn with packets := rest }, data.size, none)
  | [] =>
      if conn.closeChan ≠ 0 then (conn, 0, some .connClosed)
      else (conn, 0, some .wouldBlock)

/-- `ReadPacket`: dequeue the next inbound frame and decode it.  The pool
lookup (unknown IDs becoming `packet.Unknown`) is already folded into the
frame's `pk` field.  Select modelled with data priority as in `Conn.read`. -/
def Conn.readPacket (conn : Conn) : Conn × Except ConnErr Packet :=
  match conn.packets with
  | data :: rest => ({ conn with packets := rest }, .ok data.pk)
  | [] =>
      if conn.closeChan ≠ 0 then (conn, .error .connClosed)
      else (conn, .error .wouldBlock)

/-- Duration used by `SetReadDeadline` for the empty time: `time.Hour * 1000000`
in nanoseconds. -/
def neverDuration : Nat := 1000000 * 3600 * 1000000000

/-- `SetReadDeadline`, with instants as naturals (nanoseconds; the Go zero time
is `0`, and `time.Now()` is some positive `now`).  Returns the fire instant of
the one-shot deadline signal installed on the connection.  Mirrors the source
order: the `t.Before(time.Now())` check runs before the zero-time check. -/
def setReadDeadline (now t : Nat) : Except ConnErr Nat :=
  if t < now then .error .deadlineBeforeNow
  else if t = 0 then .ok (now + neverDuration)
  else .ok (now + (t - now))

/-- Loop of `handleClientToServerHandshake` building the ResourcePacksInfo
packet: accumulates the global scripts flag and splits packs into behaviour
and texture lists, each entry carrying uuid, version, size and scripts flag. -/
def buildPacksInfo (packs : List Pack) (hasScripts : Bool)
    (bp tp : List ResourcePackEntry) : Bool × List ResourcePackEntry × List ResourcePackEntry :=
  match packs with
  | [] => (hasScripts, bp, tp)
  | pack :: rest =>
      let entry : ResourcePackEntry :=
        { uuid := pack.uuid, version := pack.version, size := pack.size,
          hasScripts := pack.hasScripts }
      let hasScripts := hasScripts || pack.hasScripts
      if pack.hasBehaviours then buildPacksInfo rest hasScripts (bp ++ [entry]) tp
      else buildPacksInfo rest hasScripts bp (tp ++ [entry])

/-- Loop of the `AllPacksDownloaded` branch building the ResourcePackStack
packet: entries carry only uuid and version (size and scripts left zero). -/
def buildPackStack (packs : List Pack)
    (bp tp : List ResourcePackEntry) : List ResourcePackEntry × List ResourcePackEntry :=
  match packs with
  | [] => (bp, tp)
  | pack :: rest =>
      let entry : ResourcePackEntry :=
        { uuid := pack.uuid, version := pack.version, size := 0, hasScripts := false }
      if pack.hasBehaviours then buildPackStack rest (bp ++ [entry]) tp
      else buildPackStack rest bp (tp ++ [entry])

/-- Modelled from the spec: `resourcePackQueue.Request(ids)` resolves every
requested UUID against the offered packs, building the download queue in the
requested order, and fails on an unknown UUID. -/
def requestPacks (packs : List Pack) : List String → Except ConnErr (List Pack)
  | [] => .ok []
  | pid :: rest =>
      match packs.find? (fun p => p.uuid = pid) with
      | none => .error (.unknownPack pid)
      | some p =>
          match requestPacks packs rest with
          | .error e => .error e
          | .ok ps => .ok (p :: ps)

/-- Modelled from the spec: `resourcePackQueue.NextPack()` pops the download
queue, resets the cursor to the popped pack at offset 0, and returns the
ResourcePackDataInfo packet for it (chunk size, ceiling chunk count, total
size); returns `none` at end of queue. -/
def ResourcePackQueue.nextPack (q : ResourcePackQueue) :
    Option (ResourcePackQueue × Packet) :=
  match q.queue with
  | [] => none
  | p :: rest =>
      some ({ q with queue := rest, currentPack := some p, currentOffset := 0 },
        .resourcePackDataInfo p.uuid packChunkSize
          ((p.size + packChunkSize - 1) / packChunkSize) p.size)

/-- Modelled from the spec: `resourcePackQueue.AllDownloaded()` holds when the
download queue is exhausted. -/
def ResourcePackQueue.allDownloaded (q : ResourcePackQueue) : Bool :=
  q.queue.isEmpty

/-- `nextResourcePackDownload`: advance the queue to the next pack, send its
data info packet, and expect ResourcePackChunkRequest packets next. -/
def Conn.nextResourcePackDownload (conn : Conn) : Conn × Option ConnErr :=
  match conn.packQueue with
  | none => (conn, some .nilPackQueue)
  | some q =>
      match q.nextPack with
      | none => (conn, some .noPacksToDownload)
      | some (q1, pk) =>
          let conn := { conn with packQueue := some q1 }
          let conn := (conn.writePacket pk).1
          ({ conn with expectedID := IDResourcePackChunkRequest }, none)

/-- `enableEncryption`: marshal the server public key, build the ES384 JWT
whose payload carries the salt encoded with `base64.RawStdEncoding`, send it
in a ServerToClientHandshake packet, flush immediately, then derive
SHA-256(salt ‖ big-endian shared X) and enable encryption on the encoder and
the decoder.  Key marshalling failure aborts before anything is sent. -/
def Conn.enableEncryption (ext : Externals) (clientPubX clientPubY : Nat)
    (conn : Conn) : Conn × Option ConnErr :=
  match ext.marshalPublicKey conn.privateKey.pubX conn.privateKey.pubY with
  | .error e => (conn, some (.marshalKeyErr e))
  | .ok pubKeyStr =>
      let header : JWTHeader := { algorithm := "ES384", x5u := pubKeyStr }
      let serverJWT : JWTToken :=
        { header := header, payloadSalt := base64RawStd conn.salt,
          signedWithD := conn.privateKey.d }
      let conn := (conn.writePacket (.serverToClientHandshake serverJWT)).1
      let conn := (conn.flush).1
      let x := ext.scalarMultX clientPubX clientPubY conn.privateKey.d
      let keyBytes := ext.sha256 (conn.salt ++ natToBE x)
      let conn := { conn with encoderEncrypted := true, encoderKey := some keyBytes }
      let conn := { conn with decoderEncrypted := true, decoderKey := some keyBytes }
      (conn, none)

/-- `handleLogin`: set the next expected packet to ClientToServerHandshake,
check the protocol version (sending the matching PlayStatus failure and
closing on mismatch), then verify, decode and validate the login request and
enable encryption. -/
def Conn.handleLogin (ext : Externals) (clientProtocol : Nat)
    (connectionRequest : Bytes) (conn : Conn) : Conn × Option ConnErr :=
  let conn := { conn with expectedID := IDClientToServerHandshake }
  if clientProtocol ≠ CurrentProtocol then
    let status :=
      if clientProtocol > CurrentProtocol then PlayStatusLoginFailedServer
      else PlayStatusLoginFailedClient
    let conn := (conn.writePacket (.playStatus status)).1
    conn.closeConn
  else
    match ext.verifyLogin connectionRequest with
    | .error e => (conn, some (.verifyErr e))
    | .ok (pubX, pubY, authenticated) =>
        if !authenticated then (conn, some .notAuthenticated)
        else
          match ext.decodeLogin connectionRequest with
          | .error e => (conn, some (.decodeErr e))
          | .ok (identityData, clientData) =>
              match ext.validateIdentity identityData with
              | some e => (conn, some (.invalidIdentityData e))
              | none =>
                  match ext.validateClient clientData with
                  | some e => (conn, some (.invalidClientData e))
                  | none => conn.enableEncryption ext pubX pubY

/-- `handleClientToServerHandshake`: expect a ResourcePackClientResponse next,
send PlayStatus(LoginSuccess) and then the ResourcePacksInfo built from the
offered packs. -/
def Conn.handleClientToServerHandshake (conn : Conn) : Conn × Option ConnErr :=
  let conn := { conn with expectedID := IDResourcePackClientResponse }
  let conn := (conn.writePacket (.playStatus PlayStatusLoginSuccess)).1
  let r := buildPacksInfo conn.resourcePacks false [] []
  let conn := (conn.writePacket
    (.resourcePacksInfo conn.texturePacksRequired r.1 r.2.1 r.2.2)).1
  (conn, none)

/-- `handleResourcePackClientResponse`: dispatch on the response code —
Refused closes; SendPacks builds the download queue and starts the first
download; AllPacksDownloaded sends the ResourcePackStack; Completed marks the
connection logged in; anything else is an error. -/
def Conn.handleResourcePackClientResponse (conn : Conn) (response : Nat)
    (packsToDownload : List String) : Conn × Option ConnErr :=
  if response = PackResponseRefused then conn.closeConn
  else if response = PackResponseSendPacks then
    let q0 : ResourcePackQueue :=
      { packs := conn.resourcePacks, queue := [], currentPack := none, currentOffset := 0 }
    let conn := { conn with packQueue := some q0 }
    match requestPacks q0.packs packsToDownload with
    | .error e => (conn, some e)
    | .ok ps =>
        let conn := { conn with packQueue := some { q0 with queue := ps } }
        conn.nextResourcePackDownload
  else if response = PackResponseAllPacksDownloaded then
    let r := buildPackStack conn.resourcePacks [] []
    let conn := (conn.writePacket
      (.resourcePackStack conn.texturePacksRequired r.1 r.2)).1
    (conn, none)
  else if response = PackResponseCompleted then
    ({ conn with loggedIn := true }, none)
  else (conn, some (.unknownPackResponse response))

/-- `handleResourcePackChunkRequest`: reject a request whose UUID is not the
current pack's or whose chunk index does not match the cursor; otherwise send
the chunk (a full 512 KiB, or the remainder at end of pack, which `ReadAt`
signals with EOF — modelled from the spec as reading `min(chunkSize, size -
offset)` bytes with EOF exactly when fewer than requested remain), advance the
cursor, and at end of pack move to the next pack or expect the client's final
response.  The state transition is a deferred block in the source, so it runs
after the chunk data packet is written. -/
def Conn.handleResourcePackChunkRequest (conn : Conn) (uuid : String)
    (chunkIndex : Nat) : Conn × Option ConnErr :=
  match conn.packQueue with
  | none => (conn, some .nilPackQueue)
  | some q =>
      match q.currentPack with
      | none => (conn, some .nilCurrentPack)
      | some current =>
          if current.uuid ≠ uuid then
            (conn, some (.chunkRequestUnexpectedUUID current.uuid uuid))
          else if q.currentOffset ≠ chunkIndex * packChunkSize then
            (conn, some (.chunkRequestUnexpectedIndex
              (q.currentOffset / packChunkSize) chunkIndex))
          else
            let dataOffset := q.currentOffset
            let q1 := { q with currentOffset := q.currentOffset + packChunkSize }
            let conn := { conn with packQueue := some q1 }
            let n := min packChunkSize (current.size - dataOffset)
            let eof := current.size < dataOffset + packChunkSize
            let dataLen := if eof then n else packChunkSize
            let conn := (conn.writePacket
              (.resourcePackChunkData uuid chunkIndex dataOffset dataLen)).1
            if eof then
              if q1.allDownloaded then
                ({ conn with expectedID := IDResourcePackClientResponse }, none)
              else
                ((conn.nextResourcePackDownload).1, none)
            else (conn, none)

/-- `handlePlayStatus` (client side of the connection): success and spawn
statuses are accepted, every failure status closes the connection and returns
the matching error. -/
def Conn.handlePlayStatus (conn : Conn) (status : Nat) : Conn × Option ConnErr :=
  if status = PlayStatusLoginSuccess then (conn, none)
  else if status = PlayStatusLoginFailedClient then
    ((conn.closeConn).1, some .clientOutdated)
  else if status = PlayStatusLoginFailedServer then
    ((conn.closeConn).1, some .serverOutdated)
  else if status = PlayStatusPlayerSpawn then (conn, none)
  else if status = PlayStatusLoginFailedInvalidTenant then
    ((conn.closeConn).1, some .invalidTenant)
  else if status = PlayStatusLoginFailedVanillaEdu then
    ((conn.closeConn).1, some .vanillaEdu)
  else if status = PlayStatusLoginFailedEduVanilla then
    ((conn.closeConn).1, some .eduVanilla)
  else if status = PlayStatusLoginFailedServerFull then
    ((conn.closeConn).1, some .serverFull)
  else (conn, some (.unknownPlayStatus status))

/-- `handleIncoming`: enqueue the frame on the inbound channel; while not
logged in, immediately dequeue and decode the next frame, silently ignore it
if its ID is not the expected one, and otherwise dispatch it to the matching
handler by packet type. -/
def Conn.handleIncoming (ext : Externals) (conn : Conn) (data : RawFrame) :
    Conn × Option ConnErr :=
  let conn := { conn with packets := conn.packets ++ [data] }
  if !conn.loggedIn then
    match conn.readPacket with
    | (conn, .error e) => (conn, some e)
    | (conn, .ok pk) =>
        if pk.id ≠ conn.expectedID then (conn, none)
        else
          match pk with
          | .login cp cr => conn.handleLogin ext cp cr
          | .clientToServerHandshake => conn.handleClientToServerHandshake
          | .resourcePackClientResponse resp pd =>
              conn.handleResourcePackClientResponse resp pd
          | .resourcePackChunkRequest u i => conn.handleResourcePackChunkRequest u i
          | .playStatus s => conn.handlePlayStatus s
          | .disconnect => conn.closeConn
          | _ => (conn, none)
  else (conn, none)

/-! Concrete fixtures used to evaluate the model on closed inputs. -/

/-- Concrete instantiation of the external collaborators for evaluation. -/
def testExternals : Externals :=
  { sha256 := fun b => b
    scalarMultX := fun x _ d => x * d
    marshalPublicKey := fun _ _ => .ok "pubkey"
    verifyLogin := fun _ => .ok (11, 13, true)
    decodeLogin := fun _ => .ok (0, 0)
    validateIdentity := fun _ => none
    validateClient := fun _ => none }

/-- Freshly constructed server connection, as `newConn` leaves it. -/
def conn0 : Conn :=
  { expectedID := IDLogin
    loggedIn := false
    packets := []
    bufferedSend := []
    packQueue := none
    closeChan := 0
    transportClosed := false
    sentBatches := []
    encoderEncrypted := false
    decoderEncrypted := false
    encoderKey := none
    decoderKey := none
    salt := List.replicate 16 0
    privateKey := { d := 7, pubX := 3, pubY := 5 }
    resourcePacks := []
    texturePacksRequired := false }

/-- Claim C4: the claim (and the method's own documentation) says the zero
time clears the read deadline, but `SetReadDeadline` checks `t.Before(now)`
first, which the zero time always satisfies, so the call fails instead. -/
theorem C4_zero_time_rejected :
    setReadDeadline 1000000000 0 = .error ConnErr.deadlineBeforeNow := by
  rfl

/-- Claim C10: a `Read` whose buffer is smaller than the next inbound frame
returns `n = 0` with an error, and the frame has already been dequeued: it is
removed from the inbound queue and later reads only see the remaining
frames. -/
theorem C10_read_small_buffer (conn : Conn) (f : RawFrame) (rest : List RawFrame)
    (bufLen : Nat) (hq : conn.packets = f :: rest) (hlen : bufLen < f.size) :
    conn.read bufLen = ({ conn with packets := rest }, 0, some ConnErr.readBufferTooSmall) := by
  simp [Conn.read, hq, hlen]

/-- Frame used by the C10 witness. -/
def frame9 : RawFrame := { pk := .disconnect, size := 9 }

/-- Witness for C10 at a concrete connection: a 9-byte frame read into a
5-byte buffer is dropped. -/
theorem C10_read_small_buffer_witness :
    ({ conn0 with packets := [frame9] } : Conn).read 5 =
      ({ conn0 with packets := ([] : List RawFrame) }, 0, some ConnErr.readBufferTooSmall) := by
  exact C10_read_small_buffer { conn0 with packets := [frame9] } frame9 [] 5 rfl (by decide)

/-- Claim C7: while not logged in, a frame whose decoded packet ID differs
from `expected_id` is silently discarded by `handleIncoming`: no error, the
frame consumed from the inbound queue, and every other field of the
connection — `expectedID`, `loggedIn`, the pack queue, the outbound buffer,
the transport — left unchanged. -/
theorem C7_mismatch_ignored (ext : Externals) (conn : Conn) (data f : RawFrame)
    (rest : List RawFrame) (hlog : conn.loggedIn = false)
    (hsplit : conn.packets ++ [data] = f :: rest)
    (hid : f.pk.id ≠ conn.expectedID) :
    conn.handleIncoming ext data = ({ conn with packets := rest }, none) := by
  simp [Conn.handleIncoming, Conn.readPacket, hlog, hsplit, hid]

/-- Witness for C7: an unknown-ID frame arriving in the AwaitLogin state is
dropped without any state change. -/
theorem C7_mismatch_ignored_witness :
    conn0.handleIncoming testExternals { pk := .unknown 99, size := 1 } =
      ({ conn0 with packets := ([] : List RawFrame) }, none) := by
  exact C7_mismatch_ignored testExternals conn0 { pk := .unknown 99, size := 1 }
    { pk := .unknown 99, size := 1 } [] rfl rfl (by decide)

/-- Claim C1 counterexample: on a version-mismatched Login the handler has
already set `expected_id` to ClientToServerHandshake (it does so before the
version check), so "expected_id is never set to ClientToServerHandshake on
this path" fails at this concrete input. -/
theorem C1_version_mismatch_counterexample :
    (CurrentProtocol - 1 ≠ CurrentProtocol) ∧
    (conn0.handleLogin testExternals (CurrentProtocol - 1) []).1.expectedID =
      IDClientToServerHandshake := by
  decide

/-- Claim C1 (amended): on a version-mismatched Login the server writes a
PlayStatus with LoginFailedClient (client lower) or LoginFailedServer (client
higher), flushes it and closes the connection; `expected_id`, however, has
been set to ClientToServerHandshake unconditionally at the start of
`handleLogin`, on this path as well — the closed connection just never acts
on it. -/
theorem C1_version_mismatch (ext : Externals) (conn : Conn) (cp : Nat) (cr : Bytes)
    (hcp : cp ≠ CurrentProtocol) (hclose : conn.closeChan = 0)
    (htr : conn.transportClosed = false) :
    (conn.handleLogin ext cp cr).2 = none ∧
    (conn.handleLogin ext cp cr).1.sentBatches = conn.sentBatches ++
      [(conn.bufferedSend ++ [Packet.playStatus
          (if cp > CurrentProtocol then PlayStatusLoginFailedServer
           else PlayStatusLoginFailedClient)], conn.encoderEncrypted)] ∧
    (conn.handleLogin ext cp cr).1.closeChan = 1 ∧
    (conn.handleLogin ext cp cr).1.transportClosed = true ∧
    (conn.handleLogin ext cp cr).1.loggedIn = conn.loggedIn ∧
    (conn.handleLogin ext cp cr).1.expectedID = IDClientToServerHandshake := by
  simp [Conn.handleLogin, Conn.writePacket, Conn.closeConn, Conn.flush, hcp, hclose, htr]

/-- Witness for C1 (amended) at a concrete outdated client. -/
theorem C1_version_mismatch_witness :
    (conn0.handleLogin testExternals 300 []).2 = none ∧
    (conn0.handleLogin testExternals 300 []).1.sentBatches = conn0.sentBatches ++
      [(conn0.bufferedSend ++ [Packet.playStatus
          (if 300 > CurrentProtocol then PlayStatusLoginFailedServer
           else PlayStatusLoginFailedClient)], conn0.encoderEncrypted)] ∧
    (conn0.handleLogin testExternals 300 []).1.closeChan = 1 ∧
    (conn0.handleLogin testExternals 300 []).1.transportClosed = true ∧
    (conn0.handleLogin testExternals 300 []).1.loggedIn = conn0.loggedIn ∧
    (conn0.handleLogin testExternals 300 []).1.expectedID = IDClientToServerHandshake := by
  exact C1_version_mismatch testExternals conn0 300 [] (by decide) rfl rfl

/-- Claim C8: `Close` is idempotent.  The first call flushes the outbound
buffer once (as a single batch, when non-empty), signals close and closes the
transport; a second call returns nil and changes nothing; and once the
transport is closed a flush — even after further packets are buffered —
hands no batch to the transport. -/
theorem C8_close_idempotent (conn : Conn) (p : Packet) (hc : conn.closeChan = 0)
    (ht : conn.transportClosed = false) :
    (conn.closeConn).2 = none ∧
    (conn.closeConn).1.closeChan = 1 ∧
    (conn.closeConn).1.transportClosed = true ∧
    (conn.closeConn).1.bufferedSend = [] ∧
    (conn.closeConn).1.sentBatches = conn.sentBatches ++
      (if conn.bufferedSend.isEmpty then []
       else [(conn.bufferedSend, conn.encoderEncrypted)]) ∧
    (conn.closeConn).1.closeConn = ((conn.closeConn).1, none) ∧
    (((conn.closeConn).1.flush).1.sentBatches = (conn.closeConn).1.sentBatches) ∧
    ((((conn.closeConn).1.writePacket p).1.flush).1.sentBatches =
      (conn.closeConn).1.sentBatches) := by
  have hbuf := conn.bufferedSend.isEmpty
  by_cases hb : conn.bufferedSend.isEmpty <;>
    simp_all [Conn.closeConn, Conn.flush, Conn.writePacket, hc, ht]

/-- Witness for C8 at a concrete connection holding one buffered packet. -/
theorem C8_close_idempotent_witness :
    let connB : Conn := { conn0 with bufferedSend := [Packet.disconnect] }
    (connB.closeConn).2 = none ∧
    (connB.closeConn).1.closeChan = 1 ∧
    (connB.closeConn).1.transportClosed = true ∧
    (connB.closeConn).1.bufferedSend = [] ∧
    (connB.closeConn).1.sentBatches = connB.sentBatches ++
      (if connB.bufferedSend.isEmpty then []
       else [(connB.bufferedSend, connB.encoderEncrypted)]) ∧
    (connB.closeConn).1.closeConn = ((connB.closeConn).1, none) ∧
    (((connB.closeConn).1.flush).1.sentBatches = (connB.closeConn).1.sentBatches) ∧
    ((((connB.closeConn).1.writePacket Packet.disconnect).1.flush).1.sentBatches =
      (connB.closeConn).1.sentBatches) := by
  exact C8_close_idempotent { conn0 with bufferedSend := [Packet.disconnect] }
    Packet.disconnect rfl rfl

/-- Salt made of sixteen `0xFF` bytes, on which the two unpadded base64
alphabets disagree. -/
def saltFF : Bytes := List.replicate 16 255

/-- Connection whose salt is `saltFF`. -/
def connFF : Conn := { conn0 with salt := saltFF }

/-- The JWT the model sends for `connFF` under `testExternals`. -/
def jwtFF : JWTToken :=
  { header := { algorithm := "ES384", x5u := "pubkey" },
    payloadSalt := base64RawStd saltFF, signedWithD := 7 }

/-- Claim C2 counterexample: the handshake JWT the code sends carries the salt
encoded with Go's `base64.RawStdEncoding` (standard alphabet, unpadded); for a
salt of sixteen `0xFF` bytes this differs from the `base64url_nopad` encoding
the claim prescribes. -/
theorem C2_salt_encoding_counterexample :
    (connFF.enableEncryption testExternals 11 13).1.sentBatches =
      [([Packet.serverToClientHandshake jwtFF], false)] ∧
    jwtFF.payloadSalt ≠ base64RawURL connFF.salt := by
  constructor
  · rfl
  · decide

/-- Claim C2 (amended): after a successful Login the server sends a
ServerToClientHandshake carrying an ES384 JWT whose `x5u` is the marshalled
server public key and whose payload salt is the *standard-alphabet* unpadded
base64 of the 16-byte salt (Go's `RawStdEncoding`, not `base64url_nopad`),
signed with the server private scalar; the packet is flushed in a plaintext
batch, and only after that flush is encryption enabled on both codec
halves with the derived key. -/
theorem C2_handshake_jwt (ext : Externals) (conn : Conn) (cx cy : Nat) (s : String)
    (hmk : ext.marshalPublicKey conn.privateKey.pubX conn.privateKey.pubY = .ok s)
    (henc : conn.encoderEncrypted = false)
    (htr : conn.transportClosed = false) :
    (conn.enableEncryption ext cx cy).2 = none ∧
    (conn.enableEncryption ext cx cy).1.sentBatches = conn.sentBatches ++
      [(conn.bufferedSend ++ [Packet.serverToClientHandshake
          { header := { algorithm := "ES384", x5u := s },
            payloadSalt := base64RawStd conn.salt,
            signedWithD := conn.privateKey.d }], false)] ∧
    (conn.enableEncryption ext cx cy).1.bufferedSend = [] ∧
    (conn.enableEncryption ext cx cy).1.encoderEncrypted = true ∧
    (conn.enableEncryption ext cx cy).1.decoderEncrypted = true ∧
    (conn.enableEncryption ext cx cy).1.encoderKey =
      some (ext.sha256 (conn.salt ++ natToBE (ext.scalarMultX cx cy conn.privateKey.d))) ∧
    (conn.enableEncryption ext cx cy).1.decoderKey =
      some (ext.sha256 (conn.salt ++ natToBE (ext.scalarMultX cx cy conn.privateKey.d))) := by
  simp [Conn.enableEncryption, Conn.writePacket, Conn.flush, hmk, henc, htr]

/-- Witness for C2 (amended) at a concrete connection. -/
theorem C2_handshake_jwt_witness :
    (conn0.enableEncryption testExternals 11 13).2 = none ∧
    (conn0.enableEncryption testExternals 11 13).1.sentBatches = conn0.sentBatches ++
      [(conn0.bufferedSend ++ [Packet.serverToClientHandshake
          { header := { algorithm := "ES384", x5u := "pubkey" },
            payloadSalt := base64RawStd conn0.salt,
            signedWithD := conn0.privateKey.d }], false)] ∧
    (conn0.enableEncryption testExternals 11 13).1.bufferedSend = [] ∧
    (conn0.enableEncryption testExternals 11 13).1.encoderEncrypted = true ∧
    (conn0.enableEncryption testExternals 11 13).1.decoderEncrypted = true ∧
    (conn0.enableEncryption testExternals 11 13).1.encoderKey =
      some (testExternals.sha256 (conn0.salt ++
        natToBE (testExternals.scalarMultX 11 13 conn0.privateKey.d))) ∧
    (conn0.enableEncryption testExternals 11 13).1.decoderKey =
      some (testExternals.sha256 (conn0.salt ++
        natToBE (testExternals.scalarMultX 11 13 conn0.privateKey.d))) := by
  exact C2_handshake_jwt testExternals conn0 11 13 "pubkey" rfl rfl rfl

/-- Claim C3: the symmetric key installed on both codec halves is
SHA-256(salt ‖ ECDH shared X), the shared X being the big-endian bytes of the
X coordinate of the client public point multiplied by the server private
scalar. -/
theorem C3_key_derivation (ext : Externals) (conn : Conn) (cx cy : Nat) (s : String)
    (hmk : ext.marshalPublicKey conn.privateKey.pubX conn.privateKey.pubY = .ok s) :
    (conn.enableEncryption ext cx cy).1.encoderKey =
      some (ext.sha256 (conn.salt ++ natToBE (ext.scalarMultX cx cy conn.privateKey.d))) ∧
    (conn.enableEncryption ext cx cy).1.decoderKey =
      (conn.enableEncryption ext cx cy).1.encoderKey := by
  simp only [Conn.enableEncryption, Conn.writePacket, Conn.flush, hmk]
  split_ifs <;> simp

/-- Witness for C3 at a concrete connection. -/
theorem C3_key_derivation_witness :
    (connFF.enableEncryption testExternals 11 13).1.encoderKey =
      some (testExternals.sha256 (connFF.salt ++
        natToBE (testExternals.scalarMultX 11 13 connFF.privateKey.d))) ∧
    (connFF.enableEncryption testExternals 11 13).1.decoderKey =
      (connFF.enableEncryption testExternals 11 13).1.encoderKey := by
  exact C3_key_derivation testExternals connFF 11 13 "pubkey" rfl

/-- Claim C5: a ResourcePackChunkRequest whose UUID is not the current pack's,
or whose chunk index times 524288 differs from the cursor, is rejected: the
connection state is returned unchanged (so no chunk data is written and the
cursor and `expected_id` keep their values) and an error is produced — in the
index case reporting expected index `current_offset / 524288` and the got
index. -/
theorem C5_chunk_request_rejected (conn : Conn) (q : ResourcePackQueue) (cur : Pack)
    (uuid : String) (chunkIndex : Nat)
    (hq : conn.packQueue = some q) (hcur : q.currentPack = some cur)
    (hbad : cur.uuid ≠ uuid ∨ q.currentOffset ≠ chunkIndex * packChunkSize) :
    (conn.handleResourcePackChunkRequest uuid chunkIndex).1 = conn ∧
    (cur.uuid ≠ uuid →
      (conn.handleResourcePackChunkRequest uuid chunkIndex).2 =
        some (.chunkRequestUnexpectedUUID cur.uuid uuid)) ∧
    (cur.uuid = uuid →
      (conn.handleResourcePackChunkRequest uuid chunkIndex).2 =
        some (.chunkRequestUnexpectedIndex (q.currentOffset / packChunkSize) chunkIndex)) := by
  by_cases huu : cur.uuid = uuid
  · have hoff : q.currentOffset ≠ chunkIndex * packChunkSize := by
      rcases hbad with h | h
      · exact absurd huu h
      · exact h
    refine ⟨?_, fun h => absurd huu h, fun _ => ?_⟩ <;>
      simp [Conn.handleResourcePackChunkRequest, hq, hcur, huu, hoff]
  · refine ⟨?_, fun _ => ?_, fun h => absurd h huu⟩ <;>
      simp [Conn.handleResourcePackChunkRequest, hq, hcur, huu]

/-- Pack used by the resource pack queue fixtures: 800000 bytes, so its final
chunk is chunk 1 with 275712 bytes. -/
def packW : Pack :=
  { uuid := "w", version := "1.0.0", size := 800000,
    hasScripts := false, hasBehaviours := false }

/-- Queue streaming `packW` from offset 0, nothing left queued behind it. -/
def queueW0 : ResourcePackQueue :=
  { packs := [packW], queue := [], currentPack := some packW, currentOffset := 0 }

/-- Connection in the SendingPacks state at offset 0 of `packW`. -/
def connW0 : Conn :=
  { conn0 with packQueue := some queueW0, expectedID := IDResourcePackChunkRequest }

/-- Witness for C5: requesting chunk 2 while the cursor is at offset 0 is
rejected with expected index 0, and the connection is unchanged. -/
theorem C5_chunk_request_rejected_witness :
    (connW0.handleResourcePackChunkRequest "w" 2).1 = connW0 ∧
    (packW.uuid ≠ "w" →
      (connW0.handleResourcePackChunkRequest "w" 2).2 =
        some (.chunkRequestUnexpectedUUID packW.uuid "w")) ∧
    (packW.uuid = "w" →
      (connW0.handleResourcePackChunkRequest "w" 2).2 =
        some (.chunkRequestUnexpectedIndex (queueW0.currentOffset / packChunkSize) 2)) := by
  exact C5_chunk_request_rejected connW0 queueW0 packW "w" 2 rfl rfl (Or.inr (by decide))

/-- Claim C9: both pack-response states project to the same `expected_id`, so
a Completed response arriving right after the ResourcePacksInfo — before any
ResourcePackStack has been sent — is accepted: after the
ClientToServerHandshake the server expects a ResourcePackClientResponse, and
the Completed response then sets `loggedIn` with no stack packet ever
buffered or flushed. -/
theorem C9_completed_skips_stack (ext : Externals) (conn : Conn)
    (hlog : conn.loggedIn = false)
    (hexp : conn.expectedID = IDClientToServerHandshake)
    (hpk : conn.packets = []) (hbuf : conn.bufferedSend = []) :
    ((conn.handleIncoming ext { pk := .clientToServerHandshake, size := 1 }).1.expectedID =
      IDResourcePackClientResponse) ∧
    ((conn.handleIncoming ext { pk := .clientToServerHandshake, size := 1 }).1.loggedIn = false) ∧
    (((conn.handleIncoming ext { pk := .clientToServerHandshake, size := 1 }).1.handleIncoming ext
        { pk := .resourcePackClientResponse PackResponseCompleted [], size := 1 }).2 = none) ∧
    (((conn.handleIncoming ext { pk := .clientToServerHandshake, size := 1 }).1.handleIncoming ext
        { pk := .resourcePackClientResponse PackResponseCompleted [], size := 1 }).1.loggedIn =
      true) ∧
    (((conn.handleIncoming ext { pk := .clientToServerHandshake, size := 1 }).1.handleIncoming ext
        { pk := .resourcePackClientResponse PackResponseCompleted [], size := 1 }).1.bufferedSend =
      [Packet.playStatus PlayStatusLoginSuccess,
       Packet.resourcePacksInfo conn.texturePacksRequired
         (buildPacksInfo conn.resourcePacks false [] []).1
         (buildPacksInfo conn.resourcePacks false [] []).2.1
         (buildPacksInfo conn.resourcePacks false [] []).2.2]) ∧
    (((conn.handleIncoming ext { pk := .clientToServerHandshake, size := 1 }).1.handleIncoming ext
        { pk := .resourcePackClientResponse PackResponseCompleted [], size := 1 }).1.sentBatches =
      conn.sentBatches) := by
  simp [Conn.handleIncoming, Conn.readPacket, Conn.handleClientToServerHandshake,
    Conn.handleResourcePackClientResponse, Conn.writePacket, Packet.id, hlog, hexp, hpk, hbuf,
    IDClientToServerHandshake, IDResourcePackClientResponse, PackResponseCompleted,
    PackResponseRefused, PackResponseSendPacks, PackResponseAllPacksDownloaded]

/-- Connection fixture in the AwaitClientHandshake state. -/
def connH : Conn := { conn0 with expectedID := IDClientToServerHandshake }

/-- Witness for C9 at a concrete connection. -/
theorem C9_completed_skips_stack_witness :
    ((connH.handleIncoming testExternals { pk := .clientToServerHandshake, size := 1 }).1.expectedID =
      IDResourcePackClientResponse) ∧
    ((connH.handleIncoming testExternals { pk := .clientToServerHandshake, size := 1 }).1.loggedIn = false) ∧
    (((connH.handleIncoming testExternals { pk := .clientToServerHandshake, size := 1 }).1.handleIncoming testExternals
        { pk := .resourcePackClientResponse PackResponseCompleted [], size := 1 }).2 = none) ∧
    (((connH.handleIncoming testExternals { pk := .clientToServerHandshake, size := 1 }).1.handleIncoming testExternals
        { pk := .resourcePackClientResponse PackResponseCompleted [], size := 1 }).1.loggedIn =
      true) ∧
    (((connH.handleIncoming testExternals { pk := .clientToServerHandshake, size := 1 }).1.handleIncoming testExternals
        { pk := .resourcePackClientResponse PackResponseCompleted [], size := 1 }).1.bufferedSend =
      [Packet.playStatus PlayStatusLoginSuccess,
       Packet.resourcePacksInfo connH.texturePacksRequired
         (buildPacksInfo connH.resourcePacks false [] []).1
         (buildPacksInfo connH.resourcePacks false [] []).2.1
         (buildPacksInfo connH.resourcePacks false [] []).2.2]) ∧
    (((connH.handleIncoming testExternals { pk := .clientToServerHandshake, size := 1 }).1.handleIncoming testExternals
        { pk := .resourcePackClientResponse PackResponseCompleted [], size := 1 }).1.sentBatches =
      connH.sentBatches) := by
  exact C9_completed_skips_stack testExternals connH rfl rfl rfl rfl

/-- Claim C6: streaming a pack whose size is not a multiple of 524288 from a
cursor at chunk `k`: every non-final chunk data packet carries exactly 524288
bytes and leaves `expected_id` alone while advancing the cursor; the final
chunk (index `size / 524288`) carries exactly `size % 524288` bytes, after
which the connection either sends the next queued pack's data info with
`expected_id` (re)set to ResourcePackChunkRequest, or, with nothing left in
the queue, sets `expected_id` to ResourcePackClientResponse. -/
theorem C6_chunk_lengths (conn : Conn) (q : ResourcePackQueue) (cur : Pack) (k : Nat)
    (hq : conn.packQueue = some q) (hcur : q.currentPack = some cur)
    (hmod : cur.size % packChunkSize ≠ 0)
    (hoff : q.currentOffset = k * packChunkSize) :
    ((conn.handleResourcePackChunkRequest cur.uuid k).2 = none) ∧
    (k < cur.size / packChunkSize →
      (conn.handleResourcePackChunkRequest cur.uuid k).1.bufferedSend =
        conn.bufferedSend ++
          [Packet.resourcePackChunkData cur.uuid k (k * packChunkSize) packChunkSize] ∧
      (conn.handleResourcePackChunkRequest cur.uuid k).1.expectedID = conn.expectedID ∧
      (conn.handleResourcePackChunkRequest cur.uuid k).1.packQueue =
        some { q with currentOffset := k * packChunkSize + packChunkSize }) ∧
    (k = cur.size / packChunkSize →
      (q.queue = [] →
        (conn.handleResourcePackChunkRequest cur.uuid k).1.bufferedSend =
          conn.bufferedSend ++
            [Packet.resourcePackChunkData cur.uuid k (k * packChunkSize)
              (cur.size % packChunkSize)] ∧
        (conn.handleResourcePackChunkRequest cur.uuid k).1.expectedID =
          IDResourcePackClientResponse) ∧
      (∀ p ps, q.queue = p :: ps →
        (conn.handleResourcePackChunkRequest cur.uuid k).1.bufferedSend =
          conn.bufferedSend ++
            [Packet.resourcePackChunkData cur.uuid k (k * packChunkSize)
              (cur.size % packChunkSize),
             Packet.resourcePackDataInfo p.uuid packChunkSize
               ((p.size + packChunkSize - 1) / packChunkSize) p.size] ∧
        (conn.handleResourcePackChunkRequest cur.uuid k).1.expectedID =
          IDResourcePackChunkRequest)) := by
  have h524 : packChunkSize = 524288 := by norm_num [packChunkSize]
  by_cases heof : cur.size < k * packChunkSize + packChunkSize
  · refine ⟨?_, ?_, ?_⟩
    · rcases hqe : q.queue with _ | ⟨p, ps⟩ <;>
        simp [Conn.handleResourcePackChunkRequest, Conn.nextResourcePackDownload,
          Conn.writePacket, ResourcePackQueue.nextPack, ResourcePackQueue.allDownloaded,
          hq, hcur, hoff, heof, hqe]
    · intro hk
      exfalso
      simp only [h524] at hk heof
      omega
    · intro hk
      have hmin : min packChunkSize (cur.size - k * packChunkSize) =
          cur.size % packChunkSize := by
        simp only [h524] at hk ⊢
        omega
      constructor
      · intro hqe
        simp [Conn.handleResourcePackChunkRequest, ResourcePackQueue.allDownloaded,
          Conn.writePacket, hq, hcur, hoff, heof, hqe, hmin]
      · intro p ps hqe
        simp [Conn.handleResourcePackChunkRequest, ResourcePackQueue.allDownloaded,
          ResourcePackQueue.nextPack, Conn.nextResourcePackDownload, Conn.writePacket,
          hq, hcur, hoff, heof, hqe, hmin]
  · refine ⟨?_, ?_, ?_⟩
    · simp [Conn.handleResourcePackChunkRequest, Conn.writePacket, hq, hcur, hoff, heof]
    · intro hk
      simp [Conn.handleResourcePackChunkRequest, Conn.writePacket, hq, hcur, hoff, heof]
    · intro hk
      exfalso
      simp only [h524] at hk heof hmod
      omega

/-- Queue streaming `packW` with the cursor at the start of chunk 1 (the final
chunk of an 800000-byte pack) and nothing queued behind it. -/
def queueW1 : ResourcePackQueue :=
  { packs := [packW], queue := [], currentPack := some packW,
    currentOffset := packChunkSize }

/-- Connection in the SendingPacks state at chunk 1 of `packW`. -/
def connW1 : Conn :=
  { conn0 with packQueue := some queueW1, expectedID := IDResourcePackChunkRequest }

/-- Witness for C6: the final chunk of the 800000-byte pack carries
`800000 % 524288 = 275712` bytes and the state moves back to expecting a
ResourcePackClientResponse. -/
theorem C6_chunk_lengths_witness :
    ((connW1.handleResourcePackChunkRequest packW.uuid 1).2 = none) ∧
    (1 < packW.size / packChunkSize →
      (connW1.handleResourcePackChunkRequest packW.uuid 1).1.bufferedSend =
        connW1.bufferedSend ++
          [Packet.resourcePackChunkData packW.uuid 1 (1 * packChunkSize) packChunkSize] ∧
      (connW1.handleResourcePackChunkRequest packW.uuid 1).1.expectedID = connW1.expectedID ∧
      (connW1.handleResourcePackChunkRequest packW.uuid 1).1.packQueue =
        some { queueW1 with currentOffset := 1 * packChunkSize + packChunkSize }) ∧
    (1 = packW.size / packChunkSize →
      (queueW1.queue = [] →
        (connW1.handleResourcePackChunkRequest packW.uuid 1).1.bufferedSend =
          connW1.bufferedSend ++
            [Packet.resourcePackChunkData packW.uuid 1 (1 * packChunkSize)
              (packW.size % packChunkSize)] ∧
        (connW1.handleResourcePackChunkRequest packW.uuid 1).1.expectedID =
          IDResourcePackClientResponse) ∧
      (∀ p ps, queueW1.queue = p :: ps →
        (connW1.handleResourcePackChunkRequest packW.uuid 1).1.bufferedSend =
          connW1.bufferedSend ++
            [Packet.resourcePackChunkData packW.uuid 1 (1 * packChunkSize)
              (packW.size % packChunkSize),
             Packet.resourcePackDataInfo p.uuid packChunkSize
               ((p.size + packChunkSize - 1) / packChunkSize) p.size] ∧
        (connW1.handleResourcePackChunkRequest packW.uuid 1).1.expectedID =
          IDResourcePackChunkRequest)) := by
  exact C6_chunk_lengths connW1 queueW1 packW 1 rfl rfl (by decide) (by decide)

end Gophertunnel
